import Mathlib

/-!
Shallow embedding of the "kart" helper-handoff client implemented twice in
the repository, in `src/bootloader/src/kart.c` (`kart_main`) and in
`src/bootloader/src/main.c` (`main`).  Pure control flow and data are
modelled directly; interactions with the operating system (getenv, connect,
posix_spawnp, semget, sendmsg, the helper SIGALRM signal) are modelled as an
oracle `World` record holding each call's outcome, and the run functions
thread an explicit event trace.
-/

namespace Kart

/-- The control environment variable whose presence triggers handoff mode
(`getenv("KART_USE_HELPER")` in both files). -/
def KART_USE_HELPER : String := "KART_USE_HELPER"

/-- The exit-code encoding offset: the helper writes `exit_code + 1000` into
the semaphore, the client subtracts 1000 (`semval - 1000` in both files). -/
def OFFSET : Int := 1000

/-- `IPC_CREAT` flag (0o1000) as passed to `semget`. -/
def IPC_CREAT : Nat := 512

/-- `IPC_EXCL` flag (0o2000) as passed to `semget`. -/
def IPC_EXCL : Nat := 1024

/-- `S_IRUSR` mode bit (0o400) as passed to `semget`. -/
def S_IRUSR : Nat := 256

/-- `S_IWUSR` mode bit (0o200) as passed to `semget`. -/
def S_IWUSR : Nat := 128

/-- The flag word of the `semget(IPC_PRIVATE, 1, ...)` call:
`IPC_CREAT | IPC_EXCL | S_IRUSR | S_IWUSR`. -/
def semFlags : Nat := IPC_CREAT ||| IPC_EXCL ||| S_IRUSR ||| S_IWUSR

/-- Result of the SIGALRM handler: the code passed to `exit()` and whether
the semaphore was removed (`semctl(semid, 0, IPC_RMID)`). -/
structure AlarmResult where
  exit_code : Int
  destroyed : Bool
  deriving DecidableEq, Repr

/-- The SIGALRM handler, identical in both files:
reads the semaphore value, subtracts 1000, removes the semaphore and exits
with the difference.  `semval` is the value `semctl(semid, 0, GETVAL)`
returns when the handler runs. -/
def exit_on_alarm (semval : Int) : AlarmResult :=
  { exit_code := semval - 1000, destroyed := true }

/-- The process exit status actually observable by a parent via `waitpid`:
the low 8 bits of the value passed to `exit()`. -/
def observedStatus (c : Int) : Int := c % 256

/-- A fresh System V semaphore on Linux has value 0, and neither file ever
sets it (the `SETVAL` call is commented out in both), so 0 is the resting
value the alarm handler reads when the helper has never signalled. -/
def restingSemval : Int := 0

/-- Splitting a character list at every `=` (auxiliary to `splitEq`). -/
def splitEqAux : List Char → List Char → List String
  | [], acc => [String.mk acc.reverse]
  | c :: rest, acc =>
    if c = '=' then String.mk acc.reverse :: splitEqAux rest []
    else splitEqAux rest (c :: acc)

/-- The substrings of `s` between consecutive `=` characters, in order
(including empty ones, as in `"a==b" ↦ ["a", "", "b"]`). -/
def splitEq (s : String) : List String := splitEqAux s.toList []

/-- The token list produced by the `strtok(temp, "=")` /
`strtok(NULL, "=")` loop in both capture loops: maximal nonempty substrings
between runs of `=` (strtok skips leading and repeated delimiters). -/
def strtokTokens (s : String) : List String :=
  (splitEq s).filter (fun t => !t.isEmpty)

/-- The name of an environment entry: the text before the first `=`
(the whole entry when it has no `=`). -/
def envName (e : String) : String := (splitEq e).headD ""

/-- One iteration of the capture loop of both files: `key` receives the
first `strtok` token if any, `val` the second if any; tokens past the second
are discarded, and a buffer that receives no token keeps whatever it held
before the iteration (the `char key[...]`/`char val[...]` stack buffers are
never cleared). -/
def captureStep (key val : String) (entry : String) : String × String :=
  match strtokTokens entry with
  | [] => (key, val)
  | [k] => (k, val)
  | k :: v :: _ => (k, v)

/-- Result of the whole capture loop: the `environ` object of the JSON
payload (in insertion order), the raw `helper_environ` array handed to
`posix_spawnp`, and the final contents of the key/value buffers. -/
structure Capture where
  environ : List (String × String)
  helper_environ : List String
  finalKey : String
  finalVal : String
  deriving DecidableEq, Repr

/-- The capture loop of both files, starting from (indeterminate) initial
buffer contents `key`/`val`: each entry is tokenised by `captureStep`, and
whenever `strcmp(key, "KART_USE_HELPER")` is nonzero the raw entry is
appended to `helper_environ` and the (key, val) pair to the payload
`environ` object. -/
def captureEnv (key val : String) : List String → Capture
  | [] => { environ := [], helper_environ := [], finalKey := key, finalVal := val }
  | e :: rest =>
    let st := captureStep key val e
    let r := captureEnv st.1 st.2 rest
    if st.1 = KART_USE_HELPER then r
    else { r with environ := (st.1, st.2) :: r.environ,
                  helper_environ := e :: r.helper_environ }

/-- The wire payload (`cJSON` object `payload` in both files): process id,
captured environment object, argument vector, and the semaphore id added
after `semget` succeeds. -/
structure Payload where
  pid : Int
  environ : List (String × String)
  argv : List String
  semid : Int
  deriving DecidableEq, Repr

/-- Observable events of one client run, in program order. -/
inductive Ev where
  /-- the initial `connect` attempt before any spawn -/
  | connect0
  /-- the `posix_spawnp` call, with its return value -/
  | spawn (status : Int)
  /-- the n-th `connect` attempt inside the retry loop (1-based) -/
  | retry (attempt : Nat)
  /-- the `usleep(250000)` between retry attempts -/
  | sleep250
  /-- the `semget(IPC_PRIVATE, 1, flags)` call that created the semaphore -/
  | semCreate (semid : Int) (flags : Nat)
  /-- the successful `sendmsg` of the payload plus descriptor bundle -/
  | send (p : Payload)
  /-- the `semctl(semid, 0, IPC_RMID)` removal of the semaphore -/
  | semDestroy
  /-- the `sleep(3600)` upper-bound wait running to completion -/
  | longSleep
  deriving DecidableEq, Repr

/-- Oracle for every interaction of one run with the operating system. -/
structure World where
  /-- `getenv("KART_USE_HELPER")` returns non-NULL -/
  kartSet : Bool
  /-- the entries of `environ`, in order -/
  environ : List String
  /-- the argument vector (NULL terminator dropped) -/
  argv : List String
  /-- `getpid()` -/
  pid : Int
  /-- contents of the `key` stack buffer before the first loop iteration -/
  initKey : String
  /-- contents of the `val` stack buffer before the first loop iteration -/
  initVal : String
  /-- the first `connect` returns ≥ 0 -/
  firstConnectOk : Bool
  /-- return value of `posix_spawnp` (0 on success, a positive error number
  on failure, per POSIX) -/
  spawnStatus : Int
  /-- whether the n-th `connect` attempt of the retry loop succeeds -/
  retryOk : Nat → Bool
  /-- return value of `semget` (the semaphore id, or negative on error) -/
  semgetResult : Int
  /-- `sendmsg` returns ≥ 0 -/
  sendOk : Bool
  /-- `some v` when the helper eventually raises SIGALRM with the semaphore
  at value `v`; `none` when the helper never signals -/
  signalSemval : Option Int
  /-- result of `pyi_main(argc, argv)` on the non-handoff path of main.c -/
  pyiMainResult : Int

/-- Result of one client run: the value the process exits with, the event
trace, the payload transmitted to the helper (`none` when the run failed
before a successful `sendmsg`), and the diagnostics printed. -/
structure RunResult where
  exitCode : Int
  events : List Ev
  payload : Option Payload
  diags : List String
  deriving DecidableEq, Repr

/-- The connect-retry loop of both files,
`int rtc, max_retry = 10; while ((rtc = connect(...)) != 0 && --max_retry >= 0) usleep(250000);`,
modelled with the current 1-based attempt number and the current value of
`max_retry`; returns the events produced and whether `rtc` ended at 0. -/
def retryLoop (ok : Nat → Bool) : Nat → Nat → List Ev × Bool
  | attempt, 0 =>
    if ok attempt then ([Ev.retry attempt], true) else ([Ev.retry attempt], false)
  | attempt, m + 1 =>
    if ok attempt then ([Ev.retry attempt], true)
    else
      let r := retryLoop ok (attempt + 1) m
      (Ev.retry attempt :: Ev.sleep250 :: r.1, r.2)

/-- Number of `connect` attempts recorded in an event list. -/
def retryCount (evs : List Ev) : Nat :=
  evs.countP (fun e => match e with | Ev.retry _ => true | _ => false)

/-- The payload as completed right after `semget` succeeds: the object
built before the locator (pid, environ, argv) plus the `semid` field added
by `cJSON_AddNumberToObject(payload, "semid", semid)` (identical code in
both files). -/
def tailPayload (w : World) (env : List (String × String)) : Payload :=
  { pid := w.pid, environ := env, argv := w.argv, semid := w.semgetResult }

/-- The code both files share from the `semget` call onward: allocate the
semaphore (exit code 5 on failure), add `semid` to the payload, `sendmsg`
(exit code 3 on failure), then either the SIGALRM handler runs
(`exit_on_alarm`) or `sleep(3600)` expires and the run returns 4 without
removing the semaphore. -/
def kart_tail (w : World) (env : List (String × String)) (evs : List Ev)
    (diags : List String) : RunResult :=
  if w.semgetResult < 0 then
    { exitCode := 5, events := evs, payload := none,
      diags := diags ++ ["Error setting up result communication with helper"] }
  else if w.sendOk then
    match w.signalSemval with
    | some v =>
      { exitCode := (exit_on_alarm v).exit_code,
        events := evs ++ [Ev.semCreate w.semgetResult semFlags,
          Ev.send (tailPayload w env), Ev.semDestroy],
        payload := some (tailPayload w env),
        diags := diags }
    | none =>
      { exitCode := 4,
        events := evs ++ [Ev.semCreate w.semgetResult semFlags,
          Ev.send (tailPayload w env), Ev.longSleep],
        payload := some (tailPayload w env),
        diags := diags ++ ["Timed out, no response from kart helper"] }
  else
    { exitCode := 3, events := evs ++ [Ev.semCreate w.semgetResult semFlags],
      payload := none,
      diags := diags ++ ["Error sending command to kart helper"] }

/-- `kart_main` of src/bootloader/src/kart.c: handoff branch when the
control variable is set (capture, locate-or-spawn with retry, then
`kart_tail`), otherwise `res = -9999`.  kart.c additionally prints
"env var too long" for any entry longer than its 4096-byte buffer. -/
def kart_main (w : World) : RunResult :=
  if w.kartSet then
    let cap := captureEnv w.initKey w.initVal w.environ
    let diags0 :=
      (w.environ.filter (fun e => 4096 < e.length)).map
        (fun _ => "env var too long")
    if w.firstConnectOk then
      kart_tail w cap.environ [Ev.connect0] diags0
    else if w.spawnStatus < 0 then
      { exitCode := 1, events := [Ev.connect0, Ev.spawn w.spawnStatus],
        payload := none, diags := diags0 ++ ["Error running kart helper"] }
    else
      let r := retryLoop w.retryOk 1 10
      if r.2 then
        kart_tail w cap.environ (Ev.connect0 :: Ev.spawn w.spawnStatus :: r.1) diags0
      else
        { exitCode := 2, events := Ev.connect0 :: Ev.spawn w.spawnStatus :: r.1,
          payload := none,
          diags := diags0 ++ ["Timeout connecting to kart helper"] }
  else
    { exitCode := -9999, events := [], payload := none, diags := [] }

/-- The code main.c shares with kart.c from the `semget` call onward
(textually identical in the two files). -/
def main_tail (w : World) (env : List (String × String)) (evs : List Ev)
    (diags : List String) : RunResult :=
  if w.semgetResult < 0 then
    { exitCode := 5, events := evs, payload := none,
      diags := diags ++ ["Error setting up result communication with helper"] }
  else if w.sendOk then
    match w.signalSemval with
    | some v =>
      { exitCode := (exit_on_alarm v).exit_code,
        events := evs ++ [Ev.semCreate w.semgetResult semFlags,
          Ev.send (tailPayload w env), Ev.semDestroy],
        payload := some (tailPayload w env),
        diags := diags }
    | none =>
      { exitCode := 4,
        events := evs ++ [Ev.semCreate w.semgetResult semFlags,
          Ev.send (tailPayload w env), Ev.longSleep],
        payload := some (tailPayload w env),
        diags := diags ++ ["Timed out, no response from kart helper"] }
  else
    { exitCode := 3, events := evs ++ [Ev.semCreate w.semgetResult semFlags],
      payload := none,
      diags := diags ++ ["Error sending command to kart helper"] }

/-- `main` of src/bootloader/src/main.c: same handoff branch as kart.c
(main.c has no entry-length check, so no "env var too long" diagnostic; its
capture loop uses 1024-byte buffers where kart.c uses 4096, a difference
invisible at the string level of this model), and the non-handoff branch
runs `pyi_main(argc, argv)`. -/
def main (w : World) : RunResult :=
  if w.kartSet then
    let cap := captureEnv w.initKey w.initVal w.environ
    if w.firstConnectOk then
      main_tail w cap.environ [Ev.connect0] []
    else if w.spawnStatus < 0 then
      { exitCode := 1, events := [Ev.connect0, Ev.spawn w.spawnStatus],
        payload := none, diags := ["Error running kart helper"] }
    else
      let r := retryLoop w.retryOk 1 10
      if r.2 then
        main_tail w cap.environ (Ev.connect0 :: Ev.spawn w.spawnStatus :: r.1) []
      else
        { exitCode := 2, events := Ev.connect0 :: Ev.spawn w.spawnStatus :: r.1,
          payload := none, diags := ["Timeout connecting to kart helper"] }
  else
    { exitCode := w.pyiMainResult, events := [], payload := none, diags := [] }

/-- Events that are neither the semaphore creation nor the payload send:
the initial connect, the spawn, and the retry-loop connects and sleeps. -/
def benignEv : Ev → Bool
  | Ev.connect0 => true
  | Ev.spawn _ => true
  | Ev.retry _ => true
  | Ev.sleep250 => true
  | _ => false

/-- `createBeforeSend evs = true` when no `send` event occurs before the
first `semCreate` event, and that first `semCreate` carries `IPC_EXCL`
(vacuously true when neither occurs). -/
def createBeforeSend : List Ev → Bool
  | [] => true
  | Ev.send _ :: _ => false
  | Ev.semCreate _ flags :: _ => flags &&& IPC_EXCL != 0
  | _ :: rest => createBeforeSend rest

/-- A run in which every oracle call succeeds: the control variable is set,
the helper is already reachable, `semget` returns id 7, `sendmsg` succeeds
and the helper signals completion with the semaphore at 1000. -/
def baseWorld : World :=
  { kartSet := true, environ := ["PATH=/bin", "KART_USE_HELPER=1"],
    argv := ["prog"], pid := 42, initKey := "", initVal := "",
    firstConnectOk := true, spawnStatus := 0, retryOk := fun _ => false,
    semgetResult := 7, sendOk := true, signalSemval := some 1000,
    pyiMainResult := 0 }

/-- The payload `kart_main baseWorld` transmits. -/
def basePayload : Payload :=
  { pid := 42, environ := [("PATH", "/bin")], argv := ["prog"], semid := 7 }

/-- Successful handoff over an environment containing `FOO=a=b=c`. -/
def worldC1 : World := { baseWorld with environ := ["KART_USE_HELPER=1", "FOO=a=b=c"] }

/-- Successful handoff whose helper never signals completion. -/
def worldC2 : World := { baseWorld with signalSemval := none }

/-- No helper reachable, `posix_spawnp` fails with error number 2 (ENOENT),
and no later connect attempt ever succeeds. -/
def worldC3 : World := { baseWorld with firstConnectOk := false, spawnStatus := 2 }

/-- No helper reachable, spawn succeeds, no connect attempt ever succeeds. -/
def worldC4 : World := { baseWorld with firstConnectOk := false }

/-- Successful handoff whose helper reports exit code 127 (writes 1127). -/
def worldC6 : World := { baseWorld with signalSemval := some 1127 }

/-- C1: the capture loop does not split on the first `=` only: for the
entry `FOO=a=b=c` the `strtok` loop keeps only the first two tokens, so the
payload maps `FOO` to `"a"`, not to the exact remainder `"a=b=c"`, in both
copies of the client; capture-then-reconstruct loses the value. -/
theorem c1_first_eq_split_lost :
    (captureEnv "" "" ["FOO=a=b=c"]).environ = [("FOO", "a")] ∧
    [("FOO", "a")] ≠ [("FOO", "a=b=c")] ∧
    (kart_main worldC1).payload =
      some { pid := 42, environ := [("FOO", "a")], argv := ["prog"], semid := 7 } ∧
    (main worldC1).payload =
      some { pid := 42, environ := [("FOO", "a")], argv := ["prog"], semid := 7 } := by
  decide

/-- C2: when the helper never signals, both copies of the client return
exit code 4 after the `sleep(3600)` upper bound, but neither removes the
semaphore on that path (no `semDestroy` event), so the counter is leaked,
contradicting the claim that it no longer exists afterwards. -/
theorem c2_timeout_leaks_counter :
    (kart_main worldC2).exitCode = 4 ∧ Ev.longSleep ∈ (kart_main worldC2).events ∧
    Ev.semDestroy ∉ (kart_main worldC2).events ∧
    (main worldC2).exitCode = 4 ∧ Ev.semDestroy ∉ (main worldC2).events := by
  decide

/-- C3: `posix_spawnp` reports failure through a positive error number, but
both copies test `status < 0`, so a spawn failure (here error 2, ENOENT) is
never detected: instead of exiting immediately with the spawn diagnostic
(exit code 1), the client runs all 11 connect retries and exits with the
connect-timeout code 2. -/
theorem c3_spawn_failure_missed :
    worldC3.spawnStatus ≠ 0 ∧
    (kart_main worldC3).exitCode = 2 ∧ (kart_main worldC3).exitCode ≠ 1 ∧
    retryCount (kart_main worldC3).events = 11 ∧
    (main worldC3).exitCode = 2 ∧ retryCount (main worldC3).events = 11 := by
  decide

/-- C4 counterexample: with a spawned helper and no connect attempt ever
succeeding, the retry loop performs 11 connect attempts, not at most 10,
before the client reports the connection-timeout exit code 2. -/
theorem c4_eleven_attempts :
    retryCount (kart_main worldC4).events = 11 ∧ ¬ (11 : Nat) ≤ 10 ∧
    (kart_main worldC4).exitCode = 2 := by
  decide

/-- C7: the semaphore is never initialised, so its resting value is 0; if
the alarm handler runs before the helper has signalled, it exits with
0 − 1000 = −1000 (observable status byte 24), which is not a distinct
documented helper-timeout code — in particular it differs from the wait
timeout code 4 and collides with no sentinel check in the code. -/
theorem c7_resting_value_garbage :
    (exit_on_alarm restingSemval).exit_code = restingSemval - OFFSET ∧
    (exit_on_alarm restingSemval).exit_code = -1000 ∧
    observedStatus (exit_on_alarm restingSemval).exit_code = 24 ∧
    (exit_on_alarm restingSemval).exit_code ≠ 4 := by
  decide

/-- C10 counterexample: for the environment `["A=1", "B"]` (second entry
has no `=`), the capture loop records the pair `("B", "1")`: the key is the
fresh entry text `B`, not the stale key `A` from the previous iteration —
only the value buffer keeps its stale content — so the recorded key does
reflect the entry itself, contrary to the claim. -/
theorem c10_no_eq_key_is_fresh :
    (captureEnv "K0" "V0" ["A=1", "B"]).environ = [("A", "1"), ("B", "1")] ∧
    (captureEnv "K0" "V0" ["A=1", "B"]).environ.map Prod.fst ≠ ["A", "A"] := by
  decide

/-- C10 amended: for an entry with no `=` character (`splitEq e = [e]`),
the capture iteration stores the whole entry as the key when the entry is
nonempty — only the value buffer keeps its stale previous content — and
leaves both buffers stale only when the entry is the empty string. -/
theorem c10_amended_stale_value_only (key val e : String)
    (h : splitEq e = [e]) :
    (e.isEmpty = false → captureStep key val e = (e, val)) ∧
    (e.isEmpty = true → captureStep key val e = (key, val)) := by
  constructor
  · intro hne
    simp [captureStep, strtokTokens, h, List.filter_cons, hne]
  · intro he
    simp [captureStep, strtokTokens, h, List.filter_cons, he]

/-- Instance of `c10_amended_stale_value_only` at the entry `B` with stale
buffers `A`/`1`. -/
theorem c10_amended_witness :
    (splitEq "B" = ["B"] ∧ ("B" : String).isEmpty = false) ∧
    captureStep "A" "1" "B" = ("B", "1") :=
  ⟨⟨by decide, by decide⟩,
    (c10_amended_stale_value_only "A" "1" "B" (by decide)).1 (by decide)⟩

/-- If an entry's name (its text before the first `=`, or the whole entry
when it has no `=`) is the control variable, the capture iteration stores
exactly that name in the key buffer. -/
theorem captureStep_fst_of_envName (key val e : String)
    (h : envName e = KART_USE_HELPER) :
    (captureStep key val e).1 = KART_USE_HELPER := by
  unfold envName at h
  cases hs : splitEq e with
  | nil => rw [hs] at h; exact absurd h (by decide)
  | cons a t =>
    rw [hs] at h
    simp only [List.headD_cons] at h
    subst h
    have hne : (!(KART_USE_HELPER).isEmpty) = true := by decide
    unfold captureStep strtokTokens
    rw [hs, List.filter_cons]
    rw [if_pos hne]
    cases t.filter (fun s => !s.isEmpty) with
    | nil => rfl
    | cons b t2 => rfl

/-- C5: for every initial buffer state and every input environment, no pair
recorded in the payload `environ` object has the control variable as its
key, and no raw entry whose name is the control variable reaches the
`helper_environ` list used to spawn the helper. -/
theorem c5_control_var_never_captured (key val : String)
    (environ : List String) :
    ((captureEnv key val environ).environ.all
      (fun p => p.1 != KART_USE_HELPER)) = true ∧
    ((captureEnv key val environ).helper_environ.all
      (fun e => envName e != KART_USE_HELPER)) = true := by
  induction environ generalizing key val with
  | nil => simp [captureEnv]
  | cons e rest ih =>
    simp only [captureEnv]
    by_cases hst : (captureStep key val e).1 = KART_USE_HELPER
    · rw [if_pos hst]
      exact ih _ _
    · rw [if_neg hst]
      constructor
      · simp only [List.all_cons, Bool.and_eq_true]
        exact ⟨by simpa [bne_iff_ne] using hst, (ih _ _).1⟩
      · simp only [List.all_cons, Bool.and_eq_true]
        refine ⟨?_, (ih _ _).2⟩
        simp only [bne_iff_ne]
        intro hname
        exact hst (captureStep_fst_of_envName key val e hname)

/-- C6: for each helper-reported exit code in {0, 1, 127, 255}, when the
handoff succeeded and the completion handler runs with the semaphore at
`code + 1000`, the client exits with exactly `code`, also as the observable
8-bit process status. -/
theorem c6_exit_code_roundtrip (code : Int)
    (hc : code ∈ ([0, 1, 127, 255] : List Int)) (w : World)
    (h1 : w.kartSet = true) (h2 : w.firstConnectOk = true)
    (h3 : ¬ w.semgetResult < 0) (h4 : w.sendOk = true)
    (h5 : w.signalSemval = some (code + OFFSET)) :
    (kart_main w).exitCode = code ∧
    observedStatus (kart_main w).exitCode = code := by
  have hx : (kart_main w).exitCode = code + OFFSET - 1000 := by
    simp [kart_main, kart_tail, exit_on_alarm, h1, h2, h3, h4, h5]
  have hcode : code + OFFSET - 1000 = code := by
    simp only [OFFSET]
    omega
  rw [hx, hcode]
  refine ⟨rfl, ?_⟩
  fin_cases hc <;> decide

/-- Instance of `c6_exit_code_roundtrip` for reported code 127. -/
theorem c6_witness :
    ((127 : Int) ∈ ([0, 1, 127, 255] : List Int) ∧ worldC6.kartSet = true ∧
      worldC6.firstConnectOk = true ∧ ¬ worldC6.semgetResult < 0 ∧
      worldC6.sendOk = true ∧ worldC6.signalSemval = some (127 + OFFSET)) ∧
    (kart_main worldC6).exitCode = 127 ∧
    observedStatus (kart_main worldC6).exitCode = 127 :=
  ⟨⟨by decide, by decide, by decide, by decide, by decide, by decide⟩,
    c6_exit_code_roundtrip 127 (by decide) worldC6 (by decide) (by decide)
      (by decide) (by decide) (by decide)⟩

/-- A connect success on the current attempt ends the retry loop at once. -/
theorem retryLoop_of_ok (ok : Nat → Bool) (a m : Nat) (h : ok a = true) :
    retryLoop ok a m = ([Ev.retry a], true) := by
  cases m <;> simp [retryLoop, h]

/-- A connect failure with retries left records the attempt and the sleep
and continues with one fewer retry. -/
theorem retryLoop_of_fail (ok : Nat → Bool) (a m : Nat) (h : ok a = false) :
    retryLoop ok a (m + 1) =
      (Ev.retry a :: Ev.sleep250 :: (retryLoop ok (a + 1) m).1,
        (retryLoop ok (a + 1) m).2) := by
  simp [retryLoop, h]

/-- The retry loop makes at most `m + 1` connect attempts. -/
theorem retryLoop_count_le (ok : Nat → Bool) :
    ∀ m a, retryCount (retryLoop ok a m).1 ≤ m + 1 := by
  intro m
  induction m with
  | zero =>
    intro a
    by_cases h : ok a = true
    · simp [retryLoop, h, retryCount]
    · simp only [Bool.not_eq_true] at h
      simp [retryLoop, h, retryCount]
  | succ m ih =>
    intro a
    by_cases h : ok a = true
    · simp [retryLoop_of_ok ok a _ h, retryCount]
    · simp only [Bool.not_eq_true] at h
      rw [retryLoop_of_fail ok a m h]
      have hle := ih (a + 1)
      simp [retryCount, List.countP_cons] at hle ⊢
      omega

/-- If the retry loop exhausts its retries, it made exactly `m + 1`
connect attempts. -/
theorem retryLoop_exhausted_count (ok : Nat → Bool) :
    ∀ m a, (retryLoop ok a m).2 = false →
      retryCount (retryLoop ok a m).1 = m + 1 := by
  intro m
  induction m with
  | zero =>
    intro a h
    by_cases hk : ok a = true
    · simp [retryLoop_of_ok ok a _ hk] at h
    · simp only [Bool.not_eq_true] at hk
      simp [retryLoop, hk, retryCount]
  | succ m ih =>
    intro a h
    by_cases hk : ok a = true
    · simp [retryLoop_of_ok ok a _ hk] at h
    · simp only [Bool.not_eq_true] at hk
      rw [retryLoop_of_fail ok a m hk] at h ⊢
      have hc := ih (a + 1) h
      simp [retryCount, List.countP_cons] at hc ⊢
      omega

/-- A helper that rejects the first four connect attempts and accepts the
fifth makes the retry loop stop with success after exactly 5 attempts. -/
theorem retryLoop_fifth_attempt (ok : Nat → Bool)
    (h : ∀ n, n < 5 → ok n = false) (h5 : ok 5 = true) :
    (retryLoop ok 1 10).2 = true ∧ retryCount (retryLoop ok 1 10).1 = 5 := by
  have e1 : retryLoop ok 1 10 =
      (Ev.retry 1 :: Ev.sleep250 :: (retryLoop ok 2 9).1, (retryLoop ok 2 9).2) :=
    retryLoop_of_fail ok 1 9 (h 1 (by omega))
  have e2 : retryLoop ok 2 9 =
      (Ev.retry 2 :: Ev.sleep250 :: (retryLoop ok 3 8).1, (retryLoop ok 3 8).2) :=
    retryLoop_of_fail ok 2 8 (h 2 (by omega))
  have e3 : retryLoop ok 3 8 =
      (Ev.retry 3 :: Ev.sleep250 :: (retryLoop ok 4 7).1, (retryLoop ok 4 7).2) :=
    retryLoop_of_fail ok 3 7 (h 3 (by omega))
  have e4 : retryLoop ok 4 7 =
      (Ev.retry 4 :: Ev.sleep250 :: (retryLoop ok 5 6).1, (retryLoop ok 5 6).2) :=
    retryLoop_of_fail ok 4 6 (h 4 (by omega))
  have e5 : retryLoop ok 5 6 = ([Ev.retry 5], true) := retryLoop_of_ok ok 5 6 h5
  rw [e1, e2, e3, e4, e5]
  simp [retryCount]

/-- C4 amended: after spawning a helper the retry loop makes at most 11
connect attempts (the initial try of the loop plus the 10 `max_retry`
retries), 250 ms apart; the connection-timeout exit code 2 is reported only
after all 11 attempts failed, and a helper that becomes reachable on the
5th attempt is connected on attempt 5 without exhausting the retries. -/
theorem c4_amended_eleven_attempt_bound (w : World) (hk : w.kartSet = true)
    (hc : w.firstConnectOk = false) (hs : ¬ w.spawnStatus < 0) :
    retryCount (retryLoop w.retryOk 1 10).1 ≤ 11 ∧
    ((retryLoop w.retryOk 1 10).2 = false →
      (kart_main w).exitCode = 2 ∧ retryCount (kart_main w).events = 11) ∧
    ((∀ n, n < 5 → w.retryOk n = false) → w.retryOk 5 = true →
      (retryLoop w.retryOk 1 10).2 = true ∧
      retryCount (retryLoop w.retryOk 1 10).1 = 5) := by
  refine ⟨retryLoop_count_le w.retryOk 10 1, ?_,
    fun h h5 => retryLoop_fifth_attempt w.retryOk h h5⟩
  intro hfail
  have hcount := retryLoop_exhausted_count w.retryOk 10 1 hfail
  constructor
  · simp [kart_main, hk, hc, hs, hfail]
  · have hev : (kart_main w).events =
        Ev.connect0 :: Ev.spawn w.spawnStatus :: (retryLoop w.retryOk 1 10).1 := by
      simp [kart_main, hk, hc, hs, hfail]
    rw [hev]
    simp [retryCount, List.countP_cons] at hcount ⊢
    omega

/-- Instance of `c4_amended_eleven_attempt_bound` at a world in which no
helper ever becomes reachable. -/
theorem c4_amended_witness :
    (worldC4.kartSet = true ∧ worldC4.firstConnectOk = false ∧
      ¬ worldC4.spawnStatus < 0) ∧
    retryCount (retryLoop worldC4.retryOk 1 10).1 ≤ 11 :=
  ⟨⟨by decide, by decide, by decide⟩,
    (c4_amended_eleven_attempt_bound worldC4 (by decide) (by decide)
      (by decide)).1⟩

/-- Events from the retry loop are connect attempts and sleeps only. -/
theorem retryLoop_events_benign (ok : Nat → Bool) :
    ∀ m a, ∀ e ∈ (retryLoop ok a m).1, benignEv e = true := by
  intro m
  induction m with
  | zero =>
    intro a e he
    by_cases h : ok a = true
    · rw [retryLoop_of_ok ok a _ h] at he
      simp only [List.mem_singleton] at he
      subst he
      rfl
    · simp only [Bool.not_eq_true] at h
      simp only [retryLoop, h, Bool.false_eq_true, if_false] at he
      simp only [List.mem_singleton] at he
      subst he
      rfl
  | succ m ih =>
    intro a e he
    by_cases h : ok a = true
    · rw [retryLoop_of_ok ok a _ h] at he
      simp only [List.mem_singleton] at he
      subst he
      rfl
    · simp only [Bool.not_eq_true] at h
      rw [retryLoop_of_fail ok a m h] at he
      rcases List.mem_cons.1 he with rfl | he2
      · rfl
      rcases List.mem_cons.1 he2 with rfl | he3
      · rfl
      exact ih (a + 1) e he3

/-- `createBeforeSend` ignores a prefix of benign events. -/
theorem createBeforeSend_append_benign (l rest : List Ev)
    (h : ∀ e ∈ l, benignEv e = true) :
    createBeforeSend (l ++ rest) = createBeforeSend rest := by
  induction l with
  | nil => rfl
  | cons e t ih =>
    have ht : ∀ x ∈ t, benignEv x = true :=
      fun x hx => h x (List.mem_cons_of_mem e hx)
    have he := h e (List.mem_cons_self e t)
    cases e with
    | connect0 => simpa [createBeforeSend] using ih ht
    | spawn s => simpa [createBeforeSend] using ih ht
    | retry n => simpa [createBeforeSend] using ih ht
    | sleep250 => simpa [createBeforeSend] using ih ht
    | semCreate i f => exact absurd he (by simp [benignEv])
    | send p => exact absurd he (by simp [benignEv])
    | semDestroy => exact absurd he (by simp [benignEv])
    | longSleep => exact absurd he (by simp [benignEv])

/-- A list of benign events passes `createBeforeSend` vacuously. -/
theorem createBeforeSend_of_benign (l : List Ev)
    (h : ∀ e ∈ l, benignEv e = true) : createBeforeSend l = true := by
  have hx := createBeforeSend_append_benign l [] h
  simpa using hx

/-- No send event occurs among benign events. -/
theorem send_not_mem_of_benign (l : List Ev)
    (h : ∀ e ∈ l, benignEv e = true) (p : Payload) : Ev.send p ∉ l := by
  intro hm
  have hx := h _ hm
  simp [benignEv] at hx

/-- In the code from the `semget` call onward, whatever benign events
precede it, any transmitted payload carries the id `semget` returned, and
the exclusive-create `semget` event precedes the send. -/
theorem kart_tail_create_first (w : World) (env : List (String × String))
    (evs : List Ev) (diags : List String)
    (h : ∀ e ∈ evs, benignEv e = true) :
    createBeforeSend (kart_tail w env evs diags).events = true ∧
    ∀ p, Ev.send p ∈ (kart_tail w env evs diags).events →
      p.semid = w.semgetResult ∧
      Ev.semCreate w.semgetResult semFlags ∈ (kart_tail w env evs diags).events := by
  have hexcl : (semFlags &&& IPC_EXCL != 0) = true := by decide
  by_cases h1 : w.semgetResult < 0
  · have hev : (kart_tail w env evs diags).events = evs := by
      simp [kart_tail, h1]
    rw [hev]
    refine ⟨createBeforeSend_of_benign evs h, ?_⟩
    intro p hp
    exact absurd hp (send_not_mem_of_benign evs h p)
  · by_cases h2 : w.sendOk = true
    · cases h3 : w.signalSemval with
      | some v =>
        have hev : (kart_tail w env evs diags).events =
            evs ++ [Ev.semCreate w.semgetResult semFlags,
              Ev.send (tailPayload w env), Ev.semDestroy] := by
          simp [kart_tail, h1, h2, h3]
        rw [hev]
        constructor
        · rw [createBeforeSend_append_benign _ _ h]
          simpa [createBeforeSend] using hexcl
        · intro p hp
          rcases List.mem_append.1 hp with hl | hr
          · exact absurd hl (send_not_mem_of_benign evs h p)
          · have hpeq : p = tailPayload w env := by
              simpa using hr
            subst hpeq
            exact ⟨rfl, by simp⟩
      | none =>
        have hev : (kart_tail w env evs diags).events =
            evs ++ [Ev.semCreate w.semgetResult semFlags,
              Ev.send (tailPayload w env), Ev.longSleep] := by
          simp [kart_tail, h1, h2, h3]
        rw [hev]
        constructor
        · rw [createBeforeSend_append_benign _ _ h]
          simpa [createBeforeSend] using hexcl
        · intro p hp
          rcases List.mem_append.1 hp with hl | hr
          · exact absurd hl (send_not_mem_of_benign evs h p)
          · have hpeq : p = tailPayload w env := by
              simpa using hr
            subst hpeq
            exact ⟨rfl, by simp⟩
    · have hev : (kart_tail w env evs diags).events =
          evs ++ [Ev.semCreate w.semgetResult semFlags] := by
        simp [kart_tail, h1, h2]
      rw [hev]
      constructor
      · rw [createBeforeSend_append_benign _ _ h]
        simpa [createBeforeSend] using hexcl
      · intro p hp
        rcases List.mem_append.1 hp with hl | hr
        · exact absurd hl (send_not_mem_of_benign evs h p)
        · simp at hr

/-- C8: in every run, no payload send happens before the exclusive-create
`semget` event (`createBeforeSend` scans the trace in program order), every
transmitted payload carries the semaphore id `semget` returned, that
creation event is in the trace, and the creation flags include `IPC_EXCL`. -/
theorem c8_counter_created_before_send (w : World) :
    createBeforeSend (kart_main w).events = true ∧
    (∀ p, Ev.send p ∈ (kart_main w).events →
      p.semid = w.semgetResult ∧
      Ev.semCreate w.semgetResult semFlags ∈ (kart_main w).events) ∧
    semFlags &&& IPC_EXCL ≠ 0 := by
  by_cases hk : w.kartSet = true
  · by_cases h1 : w.firstConnectOk = true
    · have hrun : kart_main w = kart_tail w
          (captureEnv w.initKey w.initVal w.environ).environ [Ev.connect0]
          ((w.environ.filter (fun e => 4096 < e.length)).map
            (fun _ => "env var too long")) := by
        simp [kart_main, hk, h1]
      rw [hrun]
      have hben : ∀ e ∈ [Ev.connect0], benignEv e = true := by
        intro e he
        simp only [List.mem_singleton] at he
        subst he
        rfl
      obtain ⟨ha, hb⟩ := kart_tail_create_first w _ _ _ hben
      exact ⟨ha, hb, by decide⟩
    · by_cases h2 : w.spawnStatus < 0
      · have hev : (kart_main w).events = [Ev.connect0, Ev.spawn w.spawnStatus] := by
          simp [kart_main, hk, h1, h2]
        refine ⟨?_, ?_, by decide⟩
        · rw [hev]
          rfl
        · intro p hp
          rw [hev] at hp
          simp at hp
      · have hben2 : ∀ e ∈ Ev.connect0 :: Ev.spawn w.spawnStatus ::
            (retryLoop w.retryOk 1 10).1, benignEv e = true := by
          intro e he
          rcases List.mem_cons.1 he with rfl | he2
          · rfl
          rcases List.mem_cons.1 he2 with rfl | he3
          · rfl
          exact retryLoop_events_benign w.retryOk 10 1 e he3
        cases hr : (retryLoop w.retryOk 1 10).2 with
        | true =>
          have hrun : kart_main w = kart_tail w
              (captureEnv w.initKey w.initVal w.environ).environ
              (Ev.connect0 :: Ev.spawn w.spawnStatus :: (retryLoop w.retryOk 1 10).1)
              ((w.environ.filter (fun e => 4096 < e.length)).map
                (fun _ => "env var too long")) := by
            simp [kart_main, hk, h1, h2, hr]
          rw [hrun]
          obtain ⟨ha, hb⟩ := kart_tail_create_first w _ _ _ hben2
          exact ⟨ha, hb, by decide⟩
        | false =>
          have hev : (kart_main w).events = Ev.connect0 :: Ev.spawn w.spawnStatus ::
              (retryLoop w.retryOk 1 10).1 := by
            simp [kart_main, hk, h1, h2, hr]
          refine ⟨?_, ?_, by decide⟩
          · rw [hev]
            exact createBeforeSend_of_benign _ hben2
          · intro p hp
            rw [hev] at hp
            exact absurd hp (send_not_mem_of_benign _ hben2 p)
  · have hev : (kart_main w).events = [] := by
      simp [kart_main, hk]
    refine ⟨?_, ?_, by decide⟩
    · rw [hev]
      rfl
    · intro p hp
      rw [hev] at hp
      simp at hp

/-- Instance of `c8_counter_created_before_send` on a fully successful
handoff run. -/
theorem c8_witness :
    createBeforeSend (kart_main baseWorld).events = true ∧
    (Ev.send basePayload ∈ (kart_main baseWorld).events ∧
      basePayload.semid = baseWorld.semgetResult ∧
      Ev.semCreate baseWorld.semgetResult semFlags ∈ (kart_main baseWorld).events) ∧
    semFlags &&& IPC_EXCL ≠ 0 :=
  ⟨(c8_counter_created_before_send baseWorld).1,
    ⟨by decide,
      ((c8_counter_created_before_send baseWorld).2.1 basePayload (by decide)).1,
      ((c8_counter_created_before_send baseWorld).2.1 basePayload (by decide)).2⟩,
    (c8_counter_created_before_send baseWorld).2.2⟩

/-- The shared post-locator code of the two files produces the same
payload, events and exit code from any diagnostic state. -/
theorem kart_tail_eq_main_tail (w : World) (env : List (String × String))
    (evs : List Ev) (d1 d2 : List String) :
    (kart_tail w env evs d1).payload = (main_tail w env evs d2).payload ∧
    (kart_tail w env evs d1).events = (main_tail w env evs d2).events ∧
    (kart_tail w env evs d1).exitCode = (main_tail w env evs d2).exitCode := by
  by_cases h1 : w.semgetResult < 0
  · refine ⟨?_, ?_, ?_⟩ <;> simp [kart_tail, main_tail, h1]
  · by_cases h2 : w.sendOk = true
    · cases h3 : w.signalSemval with
      | some v => refine ⟨?_, ?_, ?_⟩ <;> simp [kart_tail, main_tail, h1, h2, h3]
      | none => refine ⟨?_, ?_, ?_⟩ <;> simp [kart_tail, main_tail, h1, h2, h3]
    · refine ⟨?_, ?_, ?_⟩ <;> simp [kart_tail, main_tail, h1, h2]

/-- C9: on the handoff path the two near-identical copies (`kart_main` of
kart.c and `main` of main.c) agree on the transmitted payload, the whole
spawn/connect/retry/semaphore event trace, and the process exit code, for
every environment, argument vector and oracle outcome.  (They differ only
in printed diagnostics: kart.c warns about over-long entries, and in the
stack buffer sizes invisible at this string-level model.) -/
theorem c9_two_copies_agree (w : World) (h : w.kartSet = true) :
    (kart_main w).payload = (main w).payload ∧
    (kart_main w).events = (main w).events ∧
    (kart_main w).exitCode = (main w).exitCode := by
  by_cases h1 : w.firstConnectOk = true
  · have e1 : kart_main w = kart_tail w
        (captureEnv w.initKey w.initVal w.environ).environ [Ev.connect0]
        ((w.environ.filter (fun e => 4096 < e.length)).map
          (fun _ => "env var too long")) := by
      simp [kart_main, h, h1]
    have e2 : main w = main_tail w
        (captureEnv w.initKey w.initVal w.environ).environ [Ev.connect0] [] := by
      simp [main, h, h1]
    rw [e1, e2]
    exact kart_tail_eq_main_tail w _ _ _ _
  · by_cases h2 : w.spawnStatus < 0
    · refine ⟨?_, ?_, ?_⟩ <;> simp [kart_main, main, h, h1, h2]
    · cases hr : (retryLoop w.retryOk 1 10).2 with
      | true =>
        have e1 : kart_main w = kart_tail w
            (captureEnv w.initKey w.initVal w.environ).environ
            (Ev.connect0 :: Ev.spawn w.spawnStatus :: (retryLoop w.retryOk 1 10).1)
            ((w.environ.filter (fun e => 4096 < e.length)).map
              (fun _ => "env var too long")) := by
          simp [kart_main, h, h1, h2, hr]
        have e2 : main w = main_tail w
            (captureEnv w.initKey w.initVal w.environ).environ
            (Ev.connect0 :: Ev.spawn w.spawnStatus :: (retryLoop w.retryOk 1 10).1)
            [] := by
          simp [main, h, h1, h2, hr]
        rw [e1, e2]
        exact kart_tail_eq_main_tail w _ _ _ _
      | false =>
        refine ⟨?_, ?_, ?_⟩ <;> simp [kart_main, main, h, h1, h2, hr]

/-- Instance of `c9_two_copies_agree` on a fully successful handoff run. -/
theorem c9_witness :
    baseWorld.kartSet = true ∧
    (kart_main baseWorld).payload = (main baseWorld).payload ∧
    (kart_main baseWorld).events = (main baseWorld).events ∧
    (kart_main baseWorld).exitCode = (main baseWorld).exitCode :=
  ⟨by decide, (c9_two_copies_agree baseWorld (by decide)).1,
    (c9_two_copies_agree baseWorld (by decide)).2.1,
    (c9_two_copies_agree baseWorld (by decide)).2.2⟩

end Kart
